import Mathlib

/-!
Shallow embedding of the online-bookstore core (BookController.js and
BookingController.js) and proofs about it.

The datastore is modelled as an in-memory `Store` holding the three
collections. Each controller operation is a pure function from the request
data and the current store to an `Outcome` that carries the resulting store,
mirroring the promise chains in the source. Mongoose calls are modelled as:
`Model.findById id` = `List.find?` on `_id`; `Model.findOne filter` =
`List.find?` on the filter; `Model.distinct field filter` = dedup of the
projected filtered list; `Model.create` = append; `doc.save()` = in-place
replacement of the record with the mutated document.

Request-body fields that may be absent in a JS request are modelled as
`Option` values (absent = `none`); assigning an absent value to a document
field stores `none`, matching Mongoose unsetting a path assigned `undefined`.
-/

/-- A persisted Book record. Modelled from the spec: the Mongoose schema file
(app/models/Book.js) is not under src/, so the record shape follows the
persisted record shapes of the spec:
Book{_id, title, author, ISBN, createdAt, updatedAt}. -/
structure Book where
  _id : Nat
  title : Option String
  author : Option String
  ISBN : String
  createdAt : Nat
  updatedAt : Nat
deriving Repr, DecidableEq

/-- A Category membership record. Modelled from the spec: the schema file
(app/models/Category.js) is not under src/; the spec gives
Category{_id, category_name, book_id}; the `_id` plays no role in any
claim and is omitted. -/
structure CategoryRec where
  category_name : String
  book_id : Nat
deriving Repr, DecidableEq

/-- A persisted Booking record. Modelled from the spec: the schema file
(app/models/Booking.js) is not under src/; the spec gives
Booking{_id, user_id, book_id, quantity, status, createdAt, updatedAt}. -/
structure Booking where
  _id : Nat
  user_id : Nat
  book_id : Nat
  quantity : Option Nat
  status : Option String
  createdAt : Nat
  updatedAt : Nat
deriving Repr, DecidableEq

/-- The datastore: the three collections the core reads and writes. -/
structure Store where
  books : List Book
  categories : List CategoryRec
  bookings : List Booking
deriving Repr, DecidableEq

/-- The authenticated request context (`req.user`): identity plus the
moderator capability flag set by the upstream auth middleware. -/
structure UserCtx where
  _id : Nat
  isModerator : Bool
deriving Repr, DecidableEq

/-- Result of a controller call. `ok` is a 200 response, `err` an error
created with `createError(status, message)` and handed to `next`;
`thrownTypeError` is a TypeError raised on a `null` document that escapes
the promise chain unhandled (the `.catch(...).then(cb)` ordering in
`updateBooking` leaves a throw inside `cb` uncaught: no response is sent);
`nextTypeError` is a TypeError raised on a `null` document that the trailing
`.catch` does hand to `next` (as in `updateBook`), surfacing as a 500.
Every constructor carries the store after the call. -/
inductive Outcome (α : Type) where
  | ok (st : Store) (val : α)
  | err (st : Store) (status : Nat) (message : String)
  | thrownTypeError (st : Store)
  | nextTypeError (st : Store)
deriving Repr, DecidableEq

/-- An error built by `createError(status, message)`. -/
structure HttpError where
  status : Nat
  message : String
deriving Repr, DecidableEq

/-- The derived book profile: the Book fields without the
createdAt/updatedAt timestamps (excluded by the projection in
`fetchBookProfile`), plus the derived `categories` list. -/
structure BookProfile where
  _id : Nat
  title : Option String
  author : Option String
  ISBN : String
  categories : List String
deriving Repr, DecidableEq

/-- `Book.findById(id, {createdAt: false, updatedAt: false})` then
`Category.distinct('category_name', {book_id: book._id})`
(BookController.js, `fetchBookProfile`). Rejects with a 404 when the book
is not in the store; otherwise returns the projected book with the
distinct category names attached. -/
def fetchBookProfile (st : Store) (book_id : Nat) : Except HttpError BookProfile :=
  match st.books.find? (fun b => b._id == book_id) with
  | none => .error ⟨404, "book not found"⟩
  | some book =>
      .ok { _id := book._id
            title := book.title
            author := book.author
            ISBN := book.ISBN
            categories :=
              ((st.categories.filter (fun c => c.book_id == book._id)).map
                (fun c => c.category_name)).dedup }

/-- `booking.save()` after mutating the found document in place: every
record with the matching `_id` is replaced by the mutated document (in the
store `_id` is the primary key, so at most one record matches). -/
def saveByID {α : Type} (idOf : α → Nat) (target : Nat) (doc : α)
    (l : List α) : List α :=
  l.map (fun x => if idOf x == target then doc else x)

/-- `POST /api/books/:id/bookings` (BookingController.js, `addBooking`):
`Booking.create` with `user_id: req.user._id`, `book_id: req.params.id`,
`quantity: req.body.quantity`, `status: 'pending'`. The client-supplied
`bodyStatus` field of the request is never read. `newId` is the identifier
the datastore assigns; `now` the timestamp it records. -/
def addBooking (user : UserCtx) (st : Store) (book_id : Nat)
    (quantity : Option Nat) (bodyStatus : Option String)
    (now newId : Nat) : Outcome Nat :=
  let booking : Booking :=
    { _id := newId, user_id := user._id, book_id := book_id
      quantity := quantity, status := some "pending"
      createdAt := now, updatedAt := now }
  .ok { st with bookings := st.bookings ++ [booking] } newId

/-- `PATCH /api/books/bookings/:id` (BookingController.js, `updateBooking`):
`Booking.findById` — with no null check: when the booking is absent the
callback executes `booking.quantity = req.body.quantity` on `null`, and
because the chain is `.catch(...).then(cb)` the TypeError is an unhandled
rejection (`thrownTypeError`). When the booking exists, `quantity` and
`status` are overwritten with the request-body values and the document is
saved. -/
def updateBooking (st : Store) (booking_id : Nat) (quantity : Option Nat)
    (status : Option String) (now : Nat) : Outcome Nat :=
  match st.bookings.find? (fun bk => bk._id == booking_id) with
  | none => .thrownTypeError st
  | some booking =>
      let booking' := { booking with quantity := quantity, status := status
                                     updatedAt := now }
      .ok { st with bookings :=
              saveByID (fun bk => bk._id) booking_id booking' st.bookings }
        booking'._id

/-- Finding by a predicate after a save that replaces exactly the matching
records: if `find? p` found `a` and the replacement `doc` still satisfies
`p`, then `find? p` finds `doc` afterwards. -/
theorem find?_map_ite {α : Type} (p : α → Bool) (doc : α) (hdoc : p doc = true)
    (l : List α) (a : α) (h : l.find? p = some a) :
    (l.map (fun x => if p x then doc else x)).find? p = some doc := by
  induction l with
  | nil => simp at h
  | cons x xs ih =>
      by_cases hx : p x = true
      · simp [List.find?_cons, hx, hdoc]
      · have hx' : p x = false := by simpa using hx
        simp only [List.find?_cons, hx'] at h
        simpa [List.find?_cons, hx', hdoc] using ih h

/-- Insert into a list kept in descending `updatedAt` order. -/
def insertDesc (b : Booking) : List Booking → List Booking
  | [] => [b]
  | x :: xs =>
      if x.updatedAt ≤ b.updatedAt then b :: x :: xs else x :: insertDesc b xs

/-- The `sort: {updatedAt: -1}` option passed to `Booking.find` in every
listing: most-recently-updated first. -/
def sortByUpdatedDesc : List Booking → List Booking
  | [] => []
  | x :: xs => insertDesc x (sortByUpdatedDesc xs)

/-- `GET /api/books/bookings/` (BookingController.js, `getAllBookings`):
moderator gate, then `Booking.find({}, {}, {sort: {updatedAt: -1}})`.
The second component records the datastore calls the handler issued. -/
def getAllBookings (user : UserCtx) (st : Store) :
    Outcome (List Booking) × List String :=
  if !user.isModerator then
    (.err st 403 "user not authorized for this action", [])
  else
    (.ok st (sortByUpdatedDesc st.bookings), ["Booking.find"])

/-- `GET /api/books/bookings/:status` (BookingController.js,
`getBookingsWithStatus`): moderator gate, then
`Booking.find({status: req.params.status}, {}, {sort: {updatedAt: -1}})`;
the status string is used verbatim as a filter. The second component
records the datastore calls issued. -/
def getBookingsWithStatus (user : UserCtx) (st : Store) (status : String) :
    Outcome (List Booking) × List String :=
  if !user.isModerator then
    (.err st 403 "user not authorized for this action", [])
  else
    (.ok st (sortByUpdatedDesc
        (st.bookings.filter (fun bk => bk.status == some status))),
     ["Booking.find"])

/-- `GET /api/books/:id/bookings` (BookingController.js,
`getAllBookingsForBook`): moderator gate, then `Book.findById`; a missing
book is a 404, otherwise `Booking.find({book_id: targetBookID}, {}, {sort:
{updatedAt: -1}})`. The second component records the datastore calls
issued. -/
def getAllBookingsForBook (user : UserCtx) (st : Store) (book_id : Nat) :
    Outcome (List Booking) × List String :=
  if !user.isModerator then
    (.err st 403 "user not authorized for this action", [])
  else
    match st.books.find? (fun b => b._id == book_id) with
    | none => (.err st 404 "book does not exist", ["Book.findById"])
    | some _ =>
        (.ok st (sortByUpdatedDesc
            (st.bookings.filter (fun bk => bk.book_id == book_id))),
         ["Book.findById", "Booking.find"])

/-- `POST /api/books` (BookController.js, `addBook`): moderator gate, then
`Book.findOne({ISBN: ISBN})`; an existing book with the same ISBN is a 409
Conflict, otherwise `Book.create({title, author, ISBN})`. `newId` is the
identifier the datastore assigns; `now` the timestamp it records. -/
def addBook (user : UserCtx) (st : Store) (title author : Option String)
    (ISBN : String) (now newId : Nat) : Outcome Nat :=
  if !user.isModerator then
    .err st 403 "user not authorized for this action"
  else
    match st.books.find? (fun b => b.ISBN == ISBN) with
    | some _ => .err st 409 "book already in collection"
    | none =>
        let newBook : Book :=
          { _id := newId, title := title, author := author, ISBN := ISBN
            createdAt := now, updatedAt := now }
        .ok { st with books := st.books ++ [newBook] } newId

/-- `PATCH /api/books/:id` (BookController.js, `updateBook`):
`Book.findById` — with no null check and no moderator gate (the `user`
argument carries `req.user`, which the handler never reads): when the book
is absent the callback executes `targetBook.title = req.body.title` on
`null`; the chain is `.then(cb).catch(err => next(err))`, so the TypeError
is passed to `next` (`nextTypeError`, a 500 — not a 404). When the book
exists, `title` and `author` are overwritten with the request-body values
and the document is saved. -/
def updateBook (user : UserCtx) (st : Store) (book_id : Nat)
    (title author : Option String) (now : Nat) : Outcome Nat :=
  match st.books.find? (fun b => b._id == book_id) with
  | none => .nextTypeError st
  | some targetBook =>
      let targetBook' := { targetBook with title := title, author := author
                                           updatedAt := now }
      .ok { st with books :=
              (saveByID (fun b => b._id) book_id targetBook' st.books) }
        targetBook'._id

/-- Collects the results of the `fetchBookProfile` fan-out over a list of
identifiers (`Promise.all`): the profiles in order, or the first failure. -/
def collectProfiles (st : Store) : List Nat → Except HttpError (List BookProfile)
  | [] => .ok []
  | id :: rest =>
      match fetchBookProfile st id with
      | .error e => .error e
      | .ok p =>
          match collectProfiles st rest with
          | .error e => .error e
          | .ok ps => .ok (p :: ps)

/-- `GET /api/books/search` (BookController.js, `searchBook`): only a query
of length zero short-circuits to an empty result; any other query — blank
or not — runs the `$text` search. The relevance-ranked `$text` matching is
a datastore capability, taken as the black-box argument `textSearch`
returning the matched identifiers by descending score. The second
component records the datastore search calls issued. -/
def searchBook (st : Store) (textSearch : String → List Nat)
    (search : String) : Outcome (List BookProfile) × List String :=
  if search.length == 0 then
    (.ok st [], [])
  else
    match collectProfiles st (textSearch search) with
    | .error e => (.err st e.status e.message, ["Book.find"])
    | .ok books => (.ok st books, ["Book.find"])

/-- C1: for every existing book identifier `b`, `fetchBookProfile` succeeds
with a profile that carries exactly the book's non-timestamp fields, and
whose `categories` contains a name iff a (name, b) membership record exists
in the Category collection. -/
theorem fetchBookProfile_profile_exact (st : Store) (b : Nat) (bk : Book)
    (h : st.books.find? (fun x => x._id == b) = some bk) :
    ∃ p : BookProfile, fetchBookProfile st b = .ok p ∧
      p._id = bk._id ∧ p.title = bk.title ∧ p.author = bk.author ∧
      p.ISBN = bk.ISBN ∧
      ∀ name : String,
        name ∈ p.categories ↔
          ∃ c ∈ st.categories, c.category_name = name ∧ c.book_id = b := by
  have hid : bk._id = b := by
    have := List.find?_some h
    simpa using this
  refine ⟨{ _id := bk._id, title := bk.title, author := bk.author
            ISBN := bk.ISBN
            categories :=
              ((st.categories.filter (fun c => c.book_id == bk._id)).map
                (fun c => c.category_name)).dedup },
          by simp [fetchBookProfile, h], rfl, rfl, rfl, rfl, ?_⟩
  intro name
  simp only [List.mem_dedup, List.mem_map, List.mem_filter]
  constructor
  · rintro ⟨c, ⟨hc, hcb⟩, hname⟩
    exact ⟨c, hc, hname, by simpa [hid] using hcb⟩
  · rintro ⟨c, hc, hname, hcb⟩
    exact ⟨c, ⟨hc, by simp [hid, hcb]⟩, hname⟩

/-- A concrete store used to instantiate the theorems with hypotheses. -/
def sampleStore : Store :=
  { books := [ { _id := 1, title := some "Dune", author := some "Herbert"
                 ISBN := "111", createdAt := 5, updatedAt := 6 }
             , { _id := 2, title := some "Emma", author := some "Austen"
                 ISBN := "222", createdAt := 7, updatedAt := 8 } ]
    categories := [ ⟨"Fiction", 1⟩, ⟨"Classics", 2⟩, ⟨"Fiction", 1⟩ ]
    bookings := [ { _id := 10, user_id := 4, book_id := 1
                    quantity := some 2, status := some "pending"
                    createdAt := 9, updatedAt := 9 } ] }

/-- The first book of `sampleStore`. -/
def sampleBook : Book :=
  { _id := 1, title := some "Dune", author := some "Herbert"
    ISBN := "111", createdAt := 5, updatedAt := 6 }

/-- Witness for C1 at the concrete store. -/
theorem fetchBookProfile_profile_exact_witness :
    (sampleStore.books.find? (fun x => x._id == 1) = some sampleBook) ∧
    (∃ p : BookProfile, fetchBookProfile sampleStore 1 = .ok p ∧
      p._id = sampleBook._id ∧ p.title = sampleBook.title ∧
      p.author = sampleBook.author ∧ p.ISBN = sampleBook.ISBN ∧
      ∀ name : String,
        name ∈ p.categories ↔
          ∃ c ∈ sampleStore.categories,
            c.category_name = name ∧ c.book_id = 1) :=
  ⟨by decide, fetchBookProfile_profile_exact sampleStore 1 sampleBook (by decide)⟩

/-- `true` exactly when the outcome is the Forbidden failure
(`createError(403, ...)` handed to `next`). -/
def isForbidden {α : Type} : Outcome α → Bool
  | .err _ 403 _ => true
  | _ => false

/-- C2 (code behaviour at the failing input): `sampleStore` has no booking
with identifier 99, yet `updateBooking` does not produce a 404 NotFound —
the missing null check makes it dereference `null` and the TypeError
escapes as an unhandled rejection. The store it carries is the input store
unchanged. -/
theorem updateBooking_missing_crashes :
    updateBooking sampleStore 99 (some 3) (some "approved") 11 =
      .thrownTypeError sampleStore ∧
    (sampleStore.bookings.find? (fun bk => bk._id == 99) = none) := by
  constructor
  · decide
  · decide

/-- C5: the booking create operation stores a Booking whose `user_id` is the
caller's identity and whose `status` is `"pending"`, and its result does not
depend on any client-supplied status value. -/
theorem addBooking_pending_owned (user : UserCtx) (st : Store)
    (book_id : Nat) (quantity : Option Nat) (bodyStatus : Option String)
    (now newId : Nat) :
    (∃ st', addBooking user st book_id quantity bodyStatus now newId =
        .ok st' newId ∧
      { _id := newId, user_id := user._id, book_id := book_id
        quantity := quantity, status := some "pending"
        createdAt := now, updatedAt := now : Booking } ∈ st'.bookings) ∧
    ∀ s₁ s₂ : Option String,
      addBooking user st book_id quantity s₁ now newId =
        addBooking user st book_id quantity s₂ now newId := by
  refine ⟨⟨_, rfl, ?_⟩, fun s₁ s₂ => rfl⟩
  simp [addBooking]

/-- C8: updating an existing booking overwrites `quantity` and `status`
with exactly the supplied values (including absent ones), with no
validation of the status string: a subsequent fetch of the booking yields
those exact values. -/
theorem updateBooking_full_overwrite (st : Store) (booking_id : Nat)
    (bk : Booking) (q : Option Nat) (s : Option String) (now : Nat)
    (h : st.bookings.find? (fun x => x._id == booking_id) = some bk) :
    ∃ st', updateBooking st booking_id q s now = .ok st' bk._id ∧
      ∃ bk', st'.bookings.find? (fun x => x._id == booking_id) = some bk' ∧
        bk'.quantity = q ∧ bk'.status = s ∧
        bk'._id = bk._id ∧ bk'.user_id = bk.user_id ∧
        bk'.book_id = bk.book_id := by
  have hid : (bk._id == booking_id) = true := by
    simpa using List.find?_some h
  refine ⟨{ st with bookings :=
              (saveByID (fun x => x._id) booking_id
                ({ bk with quantity := q, status := s, updatedAt := now })
                st.bookings) },
          by simp [updateBooking, h], ?_⟩
  refine ⟨{ bk with quantity := q, status := s, updatedAt := now }, ?_,
          rfl, rfl, rfl, rfl, rfl⟩
  simpa [updateBooking, h, saveByID] using
    find?_map_ite (fun x => x._id == booking_id)
      { bk with quantity := q, status := s, updatedAt := now }
      (by simpa using hid) st.bookings bk h

/-- Witness for C8: updating the booking 10 of `sampleStore`. -/
theorem updateBooking_full_overwrite_witness :
    (sampleStore.bookings.find? (fun x => x._id == 10) =
      some { _id := 10, user_id := 4, book_id := 1, quantity := some 2
             status := some "pending", createdAt := 9, updatedAt := 9 }) ∧
    (∃ st', updateBooking sampleStore 10 none (some "nonsense") 12 =
        .ok st' 10 ∧
      ∃ bk', st'.bookings.find? (fun x => x._id == 10) = some bk' ∧
        bk'.quantity = none ∧ bk'.status = some "nonsense" ∧
        bk'._id = 10 ∧ bk'.user_id = 4 ∧ bk'.book_id = 1) :=
  ⟨by decide,
   updateBooking_full_overwrite sampleStore 10
     { _id := 10, user_id := 4, book_id := 1, quantity := some 2
       status := some "pending", createdAt := 9, updatedAt := 9 }
     none (some "nonsense") 12 (by decide)⟩

/-- C3 (code behaviour at the failing input): `sampleStore` has no book
with identifier 99, yet `updateBook` does not produce a 404 NotFound — the
missing null check makes it dereference `null`; the TypeError is passed to
`next` and surfaces as a 500. The store it carries is the input store
unchanged, so no book record is created or modified. -/
theorem updateBook_missing_crashes :
    updateBook ⟨4, true⟩ sampleStore 99 (some "X") (some "Y") 11 =
      .nextTypeError sampleStore ∧
    (sampleStore.books.find? (fun b => b._id == 99) = none) := by
  constructor
  · decide
  · decide

/-- C4: when the store already holds a book with ISBN `x`, `addBook` called
by a moderator with ISBN `x` fails with 409 Conflict, and the outcome
carries the input store unchanged: no second record is created. -/
theorem addBook_duplicate_isbn_conflict (u : UserCtx) (st : Store)
    (bk : Book) (x : String) (title author : Option String) (now newId : Nat)
    (hmem : bk ∈ st.books) (hisbn : bk.ISBN = x)
    (hmod : u.isModerator = true) :
    addBook u st title author x now newId =
      .err st 409 "book already in collection" := by
  have hne : st.books.find? (fun b => b.ISBN == x) ≠ none := by
    intro hnone
    have := List.find?_eq_none.mp hnone bk hmem
    simp [hisbn] at this
  obtain ⟨b', hb'⟩ := Option.ne_none_iff_exists'.mp hne
  simp [addBook, hmod, hb']

/-- Witness for C4: adding a book with the already-present ISBN "111". -/
theorem addBook_duplicate_isbn_conflict_witness :
    (sampleBook ∈ sampleStore.books) ∧ (sampleBook.ISBN = "111") ∧
    ((⟨4, true⟩ : UserCtx).isModerator = true) ∧
    (addBook ⟨4, true⟩ sampleStore (some "Copy") (some "Someone") "111" 20 21 =
      .err sampleStore 409 "book already in collection") :=
  ⟨by decide, by decide, by decide,
   addBook_duplicate_isbn_conflict ⟨4, true⟩ sampleStore sampleBook "111"
     (some "Copy") (some "Someone") 20 21 (by decide) (by decide) (by decide)⟩

/-- C6 counterexample: the claim extends the short-circuit to blank
(whitespace-only) queries, but a single-space query has length 1, so
`searchBook` does run the datastore `$text` search (the access log is
`["Book.find"]`, not `[]`). -/
theorem searchBook_blank_invokes_search :
    searchBook sampleStore (fun _ => []) " " =
      (.ok sampleStore [], ["Book.find"]) ∧
    (searchBook sampleStore (fun _ => []) " ").2 ≠ [] := by
  constructor
  · decide
  · decide

/-- C6 amended: for the empty query string, `searchBook` returns an empty
sequence as a success and invokes no datastore search. -/
theorem searchBook_empty_short_circuits (st : Store)
    (textSearch : String → List Nat) :
    searchBook st textSearch "" = (.ok st [], []) := rfl

/-- C7: each privileged listing called by a caller whose context lacks the
moderator capability fails with 403 Forbidden; the access log is empty (no
datastore call was issued) and the outcome carries the input store
unchanged. -/
theorem privileged_listings_forbidden_no_access (uid : Nat) (st : Store)
    (status : String) (book_id : Nat) :
    getAllBookings ⟨uid, false⟩ st =
      (.err st 403 "user not authorized for this action", []) ∧
    getBookingsWithStatus ⟨uid, false⟩ st status =
      (.err st 403 "user not authorized for this action", []) ∧
    getAllBookingsForBook ⟨uid, false⟩ st book_id =
      (.err st 403 "user not authorized for this action", []) :=
  ⟨rfl, rfl, rfl⟩

/-- C9: updating an existing book overwrites `title` and `author` but
leaves its ISBN, identifier and creation timestamp exactly as they were. -/
theorem updateBook_preserves_isbn_id (u : UserCtx) (st : Store)
    (book_id : Nat) (bk : Book) (title author : Option String) (now : Nat)
    (h : st.books.find? (fun x => x._id == book_id) = some bk) :
    ∃ st', updateBook u st book_id title author now = .ok st' bk._id ∧
      ∃ bk', st'.books.find? (fun x => x._id == book_id) = some bk' ∧
        bk'.ISBN = bk.ISBN ∧ bk'._id = bk._id ∧
        bk'.createdAt = bk.createdAt ∧
        bk'.title = title ∧ bk'.author = author := by
  have hid : (bk._id == book_id) = true := by
    simpa using List.find?_some h
  refine ⟨{ st with books :=
              (saveByID (fun x => x._id) book_id
                ({ bk with title := title, author := author, updatedAt := now })
                st.books) },
          by simp [updateBook, h], ?_⟩
  refine ⟨{ bk with title := title, author := author, updatedAt := now }, ?_,
          rfl, rfl, rfl, rfl, rfl⟩
  simpa [saveByID] using
    find?_map_ite (fun x => x._id == book_id)
      { bk with title := title, author := author, updatedAt := now }
      (by simpa using hid) st.books bk h

/-- Witness for C9: updating book 1 of `sampleStore`. -/
theorem updateBook_preserves_isbn_id_witness :
    (sampleStore.books.find? (fun x => x._id == 1) = some sampleBook) ∧
    (∃ st', updateBook ⟨4, false⟩ sampleStore 1 (some "New") none 13 =
        .ok st' 1 ∧
      ∃ bk', st'.books.find? (fun x => x._id == 1) = some bk' ∧
        bk'.ISBN = "111" ∧ bk'._id = 1 ∧ bk'.createdAt = 5 ∧
        bk'.title = some "New" ∧ bk'.author = none) :=
  ⟨by decide,
   updateBook_preserves_isbn_id ⟨4, false⟩ sampleStore 1 sampleBook
     (some "New") none 13 (by decide)⟩

/-- C10: `updateBook` performs no authorization check: its result is the
same for any two request contexts (in particular for contexts differing
only in the moderator flag) and is never the Forbidden failure; by
contrast, `addBook` called by any non-moderator context fails with 403
Forbidden. -/
theorem updateBook_no_authorization :
    (∀ (u₁ u₂ : UserCtx) (st : Store) (book_id : Nat)
        (title author : Option String) (now : Nat),
        updateBook u₁ st book_id title author now =
          updateBook u₂ st book_id title author now) ∧
    (∀ (u : UserCtx) (st : Store) (book_id : Nat)
        (title author : Option String) (now : Nat),
        isForbidden (updateBook u st book_id title author now) = false) ∧
    (∀ (uid : Nat) (st : Store) (title author : Option String)
        (ISBN : String) (now newId : Nat),
        addBook ⟨uid, false⟩ st title author ISBN now newId =
          .err st 403 "user not authorized for this action") := by
  refine ⟨fun _ _ _ _ _ _ _ => rfl, ?_, fun _ _ _ _ _ _ _ => rfl⟩
  intro u st book_id title author now
  cases hf : st.books.find? (fun b => b._id == book_id) <;>
    simp [updateBook, hf, isForbidden]
